import Mathlib

/-!
Shallow embedding of `posts/blog_utils.py`, a library of stateless HTML
fragment renderers, together with proofs about the claims of its
specification.  Every renderer is modelled as a Lean function from its
(Python) arguments to the output markup string; Python `Optional[T]`
becomes `Option T`, Python truthiness tests on numbers/strings are made
explicit, and `IPython.display.HTML` is modelled as the wrapped string
itself (the wrapper carries no further information).
-/

namespace BlogUtils

/-- Decimal rendering of a rational, standing in for Python's `str(float)`
when a number is interpolated into a template (`padding_bottom`,
`aria-valuenow`, ...).  No claim inspects these digits: they only occur
inside whole-output equalities whose two sides interpolate the same
number, so the particular rendering is irrelevant to every theorem. -/
def ratStr (q : ℚ) : String := toString q

/-! ### Callouts and alerts (`create_callout`, `create_alert_box`) -/

/-- The class tokens of `create_callout`'s outer `div`.  Transcribes the
f-string
`class="callout callout-style-default callout-{callout_type} {collapse_class} {collapse_state}"`
with `collapse_class = "callout-collapse" if collapsible else ""` and
`collapse_state = "collapsed" if collapsed and collapsible else ""`:
the variant tag is interpolated directly into the third token. -/
def calloutClasses (callout_type : String) (collapsible collapsed : Bool) :
    List String :=
  ["callout", "callout-style-default", "callout-" ++ callout_type,
   if collapsible then "callout-collapse" else "",
   if collapsed && collapsible then "collapsed" else ""]

/-- `display_title = title or callout_type.title()`; `.title()` is
modelled by `capitalize`, exact for the one-word tags the module uses. -/
def calloutDisplayTitle (title : Option String) (callout_type : String) : String :=
  match title with
  | some t => if t = "" then callout_type.capitalize else t
  | none => callout_type.capitalize

/-- Body of `create_callout`: the `callout_html` template with the class
list and title interpolated. -/
def create_callout (content callout_type : String) (title : Option String)
    (collapsible collapsed : Bool) : String :=
  "\n    <div class=\"" ++
    String.intercalate " " (calloutClasses callout_type collapsible collapsed) ++
    "\">\n        <div class=\"callout-header d-flex align-content-center\">\n            <div class=\"callout-icon-container\">\n                <i class=\"callout-icon\"></i>\n            </div>\n            <div class=\"callout-title-container flex-fill\">\n                " ++
    calloutDisplayTitle title callout_type ++
    "\n            </div>\n        </div>\n        <div class=\"callout-body-container callout-body\">\n            " ++
    content ++
    "\n        </div>\n    </div>\n    "

/-- The closed variant enumeration of `create_alert_box`
(the keys of its `alert_classes` dictionary). -/
def alertTypes : List String :=
  ["info", "success", "warning", "danger", "primary", "secondary"]

/-- `alert_classes.get(alert_type, "alert-info")`: the fixed lookup table
of `create_alert_box`, with default `"alert-info"`. -/
def alertClass (alert_type : String) : String :=
  if alert_type = "info" then "alert-info"
  else if alert_type = "success" then "alert-success"
  else if alert_type = "warning" then "alert-warning"
  else if alert_type = "danger" then "alert-danger"
  else if alert_type = "primary" then "alert-primary"
  else if alert_type = "secondary" then "alert-secondary"
  else "alert-info"

/-- Body of `create_alert_box`: the `alert_html` template. -/
def create_alert_box (content alert_type : String) (title : Option String)
    (dismissible : Bool) : String :=
  let title_html :=
    match title with
    | some t => if t = "" then "" else "<strong>" ++ t ++ "</strong><br>"
    | none => ""
  let dismiss_class := if dismissible then " alert-dismissible" else ""
  let dismiss_button :=
    if dismissible then
      "\n    <button type=\"button\" class=\"btn-close\" data-bs-dismiss=\"alert\" aria-label=\"Close\"></button>\n    "
    else ""
  "\n    <div class=\"alert " ++ alertClass alert_type ++ dismiss_class ++
    "\" role=\"alert\">\n        " ++ title_html ++ content ++ "\n        " ++
    dismiss_button ++ "\n    </div>\n    "

/-! ### Responsive iframe and YouTube embed -/

/-- Body of `create_responsive_iframe`: the `iframe_html` template with
`padding_bottom = f"{aspect_ratio * 100}%"` and the conditional
`allowfullscreen` attribute. -/
def create_responsive_iframe (src : String) (aspect_ratio : ℚ)
    (max_width border : String) (allowfullscreen : Bool) (loading : String) :
    String :=
  let padding_bottom := ratStr (aspect_ratio * 100) ++ "%"
  let allowfullscreen_attr := if allowfullscreen then "allowfullscreen" else ""
  "\n    <div style=\"position: relative; width: " ++ max_width ++
    "; height: 0; padding-bottom: " ++ padding_bottom ++
    "; overflow: hidden; border-radius: 8px;\">\n        <iframe src=\"" ++ src ++
    "\" \n                style=\"position: absolute; top: 0; left: 0; width: 100%; height: 100%; border: " ++
    border ++ ";\"\n                loading=\"" ++ loading ++
    "\"\n                " ++ allowfullscreen_attr ++
    ">\n        </iframe>\n    </div>\n    "

/-- The `params` list built by `embed_youtube`.  `if start_time:` is Python
truthiness on `Optional[int]`: `None` and `0` are both falsy, so a `start`
fragment is appended only for a non-zero provided start time. -/
def youtubeParams (start_time : Option Int) (autoplay controls : Bool) :
    List String :=
  (match start_time with
   | some n => if n ≠ 0 then ["start=" ++ toString n] else []
   | none => []) ++
  (if autoplay then ["autoplay=1"] else []) ++
  (if controls then [] else ["controls=0"])

/-- `param_string = "&" + "&".join(params) if params else ""`. -/
def youtubeParamString (start_time : Option Int) (autoplay controls : Bool) :
    String :=
  let params := youtubeParams start_time autoplay controls
  if params.isEmpty then "" else "&" ++ String.intercalate "&" params

/-- The `src` URL of `embed_youtube`:
`f"https://www.youtube.com/embed/{video_id}?{param_string}"`. -/
def youtubeSrc (video_id : String) (start_time : Option Int)
    (autoplay controls : Bool) : String :=
  "https://www.youtube.com/embed/" ++ video_id ++ "?" ++
    youtubeParamString start_time autoplay controls

/-- Body of `embed_youtube`: delegates to `create_responsive_iframe` with
the built URL, the given aspect ratio and width, and the iframe
renderer's remaining defaults. -/
def embed_youtube (video_id width : String) (aspect_ratio : ℚ)
    (start_time : Option Int) (autoplay controls : Bool) : String :=
  create_responsive_iframe (youtubeSrc video_id start_time autoplay controls)
    aspect_ratio width "0" true "lazy"

/-! ### Styled table (`create_styled_table`) -/

/-- `df.head(n)` of pandas: the first `n` rows for `n ≥ 0`, and all rows
except the last `|n|` for negative `n`. -/
def pdHead (n : Int) (rows : List α) : List α :=
  if 0 ≤ n then rows.take n.toNat else rows.take (rows.length - (-n).toNat)

/-- The rows rendered by `create_styled_table`:
`display_df = df.head(max_rows) if max_rows else df`.  The condition is
Python truthiness on `Optional[int]`, so both `None` and `0` select the
whole frame.  `df.to_html` renders exactly the rows of `display_df`, in
order, so the rendered row list is this list. -/
def styledTableRows (max_rows : Option Int) (rows : List α) : List α :=
  match max_rows with
  | some n => if n ≠ 0 then pdHead n rows else rows
  | none => rows

/-- The `table_classes` list of `create_styled_table`. -/
def styledTableClasses (striped hover : Bool) : List String :=
  ["table"] ++ (if striped then ["table-striped"] else []) ++
    (if hover then ["table-hover"] else [])

/-! ### Comparison table (`create_comparison_table`) -/

/-- Modelled from the documented behaviour of pandas
`Styler.highlight_max(axis=0)` (library code, not part of this
repository): in a column it marks every cell whose value equals the
column maximum — all tied maxima, not only the first.  Input is one
numeric column, output the per-row highlight mask. -/
def highlightMaxColumn (l : List ℚ) : List Bool :=
  match l.max? with
  | some m => l.map (fun x => decide (x = m))
  | none => []

/-- The highlighting computed by `create_comparison_table`: with
`highlight_best` it applies `highlight_max(axis=0)` to every column of
`pd.DataFrame(data)`; without it, no cell is highlighted
(`df.to_html` with no styling). -/
def create_comparison_table (data : List (String × List ℚ))
    (highlight_best : Bool) : List (String × List Bool) :=
  if highlight_best then
    data.map (fun c => (c.1, highlightMaxColumn c.2))
  else
    data.map (fun c => (c.1, c.2.map (fun _ => false)))

/-! ### Tabs and accordion (`create_tabs`, `create_accordion`) -/

/-- `active_class = "active" if i == 0 else ""` in `create_tabs`. -/
def tabActiveClass (i : Nat) : String := if i = 0 then "active" else ""

/-- The `class` attribute of the i-th tab's nav button:
`class="nav-link {active_class}"`. -/
def tabNavLinkClass (i : Nat) : String := "nav-link " ++ tabActiveClass i

/-- The `class` attribute of the i-th tab pane:
`class="tab-pane fade {'show active' if i == 0 else ''}"`. -/
def tabPaneClass (i : Nat) : String :=
  "tab-pane fade " ++ (if i = 0 then "show active" else "")

/-- `tab_id_clean = tab_name.lower().replace(" ", "-")`. -/
def tabIdClean (tab_name : String) : String :=
  (tab_name.toLower).replace " " "-"

/-- One entry of the `tab_nav` list of `create_tabs`. -/
def tabNavItem (tab_id : String) (i : Nat) (tab_name : String) : String :=
  "\n        <li class=\"nav-item\" role=\"presentation\">\n            <button class=\"" ++
    tabNavLinkClass i ++ "\" id=\"" ++ tab_id ++ "-" ++ tabIdClean tab_name ++
    "-tab\" \n                    data-bs-toggle=\"tab\" data-bs-target=\"#" ++
    tab_id ++ "-" ++ tabIdClean tab_name ++
    "\" \n                    type=\"button\" role=\"tab\">\n                " ++
    tab_name ++ "\n            </button>\n        </li>\n        "

/-- One entry of the `tab_content` list of `create_tabs`. -/
def tabContentItem (tab_id : String) (i : Nat) (tab_name content : String) :
    String :=
  "\n        <div class=\"" ++ tabPaneClass i ++ "\" \n             id=\"" ++
    tab_id ++ "-" ++ tabIdClean tab_name ++
    "\" role=\"tabpanel\">\n            " ++ content ++ "\n        </div>\n        "

/-- Body of `create_tabs`: both joined lists interpolated into the outer
template, iterating the ordered mapping with `enumerate`. -/
def create_tabs (tabs_content : List (String × String)) (tab_id : String) :
    String :=
  let items := tabs_content.enum
  let tab_nav := items.map (fun p => tabNavItem tab_id p.1 p.2.1)
  let tab_content := items.map (fun p => tabContentItem tab_id p.1 p.2.1 p.2.2)
  "\n    <div>\n        <ul class=\"nav nav-tabs\" id=\"" ++ tab_id ++
    "\" role=\"tablist\">\n            " ++ String.join tab_nav ++
    "\n        </ul>\n        <div class=\"tab-content\" id=\"" ++ tab_id ++
    "-content\">\n            " ++ String.join tab_content ++
    "\n        </div>\n    </div>\n    "

/-- `show_class = "show" if i == 0 else ""` in `create_accordion`, as it
appears in `class="accordion-collapse collapse {show_class}"`. -/
def accordionCollapseClass (i : Nat) : String :=
  "accordion-collapse collapse " ++ (if i = 0 then "show" else "")

/-- `collapsed_class = "" if i == 0 else "collapsed"`, as it appears in
`class="accordion-button {collapsed_class}"`. -/
def accordionButtonClass (i : Nat) : String :=
  "accordion-button " ++ (if i = 0 then "" else "collapsed")

/-- `aria-expanded="{'true' if i == 0 else 'false'}"`. -/
def accordionAriaExpanded (i : Nat) : String :=
  if i = 0 then "true" else "false"

/-- One entry of the `accordion_sections` list of `create_accordion`,
with `section_id = f"{accordion_id}-section-{i}"`. -/
def accordionSection (accordion_id : String) (allow_multiple : Bool)
    (i : Nat) (title content : String) : String :=
  let section_id := accordion_id ++ "-section-" ++ toString i
  "\n        <div class=\"accordion-item\">\n            <h2 class=\"accordion-header\" id=\"" ++
    section_id ++ "-heading\">\n                <button class=\"" ++
    accordionButtonClass i ++
    "\" type=\"button\" \n                        data-bs-toggle=\"collapse\" data-bs-target=\"#" ++
    section_id ++ "\" \n                        aria-expanded=\"" ++
    accordionAriaExpanded i ++ "\">\n                    " ++ title ++
    "\n                </button>\n            </h2>\n            <div id=\"" ++
    section_id ++ "\" class=\"" ++ accordionCollapseClass i ++
    "\" \n                 data-bs-parent=\"#" ++
    (if allow_multiple then "" else accordion_id) ++
    "\">\n                <div class=\"accordion-body\">\n                    " ++
    content ++
    "\n                </div>\n            </div>\n        </div>\n        "

/-- Body of `create_accordion`. -/
def create_accordion (accordion_items : List (String × String))
    (accordion_id : String) (allow_multiple : Bool) : String :=
  let sections := accordion_items.enum.map
    (fun p => accordionSection accordion_id allow_multiple p.1 p.2.1 p.2.2)
  "\n    <div class=\"accordion\" id=\"" ++ accordion_id ++ "\">\n        " ++
    String.join sections ++ "\n    </div>\n    "

/-! ### Progress bar (`create_progress_bar`) -/

/-- One-decimal fixed-point rendering of a rational, modelling CPython's
`f"{x:.1f}"` on the float `x`.  Exact for every value whose tenfold is an
integer (all values the claims touch); for ties CPython rounds the
underlying binary float half-to-even, a floating-point detail no claim
depends on.  The tenths digit is `⌊10q + 1/2⌋`, computed on the exact
rational as `(2·num + den) fdiv (2·den)` of `10q`. -/
def formatOneDecimal (q : ℚ) : String :=
  let t : ℚ := q * 10
  let n : ℤ := Int.fdiv (2 * t.num + (t.den : ℤ)) (2 * (t.den : ℤ))
  (if n < 0 then "-" else "") ++ toString (n.natAbs / 10) ++ "." ++
    toString (n.natAbs % 10)

/-- `percentage = (value / max_value) * 100` in `create_progress_bar`. -/
def progressPercentage (value max_value : ℚ) : ℚ := (value / max_value) * 100

/-- `label_text = label or f"{percentage:.1f}%"`: Python truthiness on
`Optional[str]`, so both `None` and the empty string select the computed
percentage label. -/
def progressLabelText (value max_value : ℚ) (label : Option String) : String :=
  let computed := formatOneDecimal (progressPercentage value max_value) ++ "%"
  match label with
  | some s => if s = "" then computed else s
  | none => computed

/-- The `progress_classes` list of `create_progress_bar`. -/
def progressClasses (color : String) (striped animated : Bool) : List String :=
  ["bg-" ++ color] ++ (if striped then ["progress-bar-striped"] else []) ++
    (if animated then ["progress-bar-animated"] else [])

/-- Body of `create_progress_bar`: the `progress_html` template. -/
def create_progress_bar (value max_value : ℚ) (label : Option String)
    (color : String) (striped animated : Bool) : String :=
  "\n    <div class=\"progress\" style=\"height: 25px; margin: 10px 0;\">\n        <div class=\"progress-bar " ++
    String.intercalate " " (progressClasses color striped animated) ++
    "\" role=\"progressbar\" \n             style=\"width: " ++
    ratStr (progressPercentage value max_value) ++
    "%\" aria-valuenow=\"" ++ ratStr value ++
    "\" \n             aria-valuemin=\"0\" aria-valuemax=\"" ++
    ratStr max_value ++ "\">\n            " ++
    progressLabelText value max_value label ++
    "\n        </div>\n    </div>\n    "

/-! ### Image gallery (`create_image_gallery`) -/

/-- `col_width = 12 // columns`: Python floor division. -/
def galleryColWidth (columns : Int) : Int := Int.fdiv 12 columns

/-- The `class` attribute of one gallery item:
`class="col-md-{col_width} mb-4"`. -/
def galleryItemClass (columns : Int) : String :=
  "col-md-" ++ toString (galleryColWidth columns) ++ " mb-4"

/-! ### Quote block (`create_quote_block`) -/

/-- Body of `create_quote_block`: the `quote_html` template with the
conditional author and source fragments. -/
def create_quote_block (quote : String) (author source : Option String) :
    String :=
  let author_html :=
    match author with
    | some a => if a = "" then "" else "<cite>— " ++ a ++ "</cite>"
    | none => ""
  let source_html :=
    match source with
    | some s => if s = "" then "" else "<small>, " ++ s ++ "</small>"
    | none => ""
  "\n    <blockquote style=\"\n        border-left: 4px solid #007bff;\n        padding: 20px;\n        margin: 20px 0;\n        background: #f8f9fa;\n        font-style: italic;\n        font-size: 1.1em;\n    \">\n        <p style=\"margin-bottom: 10px;\">\"" ++
    quote ++
    "\"</p>\n        <footer style=\"text-align: right; font-size: 0.9em;\">\n            " ++
    author_html ++ source_html ++
    "\n        </footer>\n    </blockquote>\n    "

/-! ### Quick helpers -/

/-- `quick_note(content) = create_callout(content, "note")`. -/
def quick_note (content : String) : String :=
  create_callout content "note" none false false

/-- `quick_tip(content) = create_callout(content, "tip")`. -/
def quick_tip (content : String) : String :=
  create_callout content "tip" none false false

/-- `quick_warning(content) = create_callout(content, "warning")`. -/
def quick_warning (content : String) : String :=
  create_callout content "warning" none false false

/-- `quick_success(content) = create_alert_box(content, "success")`. -/
def quick_success (content : String) : String :=
  create_alert_box content "success" none false

/-- `quick_info(content) = create_alert_box(content, "info")`. -/
def quick_info (content : String) : String :=
  create_alert_box content "info" none false

/-- `quick_youtube(video_id) = embed_youtube(video_id)` with the embed
renderer's defaults. -/
def quick_youtube (video_id : String) : String :=
  embed_youtube video_id "100%" 0.5625 none false true

/-- `quick_iframe(url, aspect_ratio) = create_responsive_iframe(url, aspect_ratio)`
with the iframe renderer's remaining defaults. -/
def quick_iframe (url : String) (aspect_ratio : ℚ) : String :=
  create_responsive_iframe url aspect_ratio "100%" "0" true "lazy"

/-- `quick_quote(quote, author) = create_quote_block(quote, author)`. -/
def quick_quote (quote : String) (author : Option String) : String :=
  create_quote_block quote author none

/-! ## Theorems about the claims -/

/-- C1, counterexample: `create_callout` has no lookup table and no
default fallback.  With the unrecognized tag `"bogus"` the class list
does not contain the default callout class `callout-note`; two distinct
unrecognized tags yield two distinct class lists (so no fixed fallback
class is produced); the raw tag is interpolated into `callout-bogus`. -/
theorem callout_unknown_variant_counterexample :
    ¬ ("callout-note" ∈ calloutClasses "bogus" false false) ∧
    calloutClasses "bogus" false false ≠ calloutClasses "fake" false false ∧
    "callout-bogus" ∈ calloutClasses "bogus" false false := by
  decide

/-- C1 (amended): for `create_alert_box` an unrecognized variant tag is
mapped through the fixed lookup table to the default class `alert-info`
and no error is raised; for `create_callout` the tag is interpolated
directly into the class `callout-<tag>` with no lookup and no fallback —
only the tag-independent `callout-style-default` class is always
present — and likewise no error is raised. -/
theorem variant_fallback_amended (t : String) (ht : t ∉ alertTypes) :
    alertClass t = "alert-info" ∧
    ∀ (cb cd : Bool), ("callout-" ++ t) ∈ calloutClasses t cb cd ∧
      "callout-style-default" ∈ calloutClasses t cb cd := by
  refine ⟨?_, fun cb cd => ⟨?_, ?_⟩⟩
  · simp only [alertTypes, List.mem_cons, List.not_mem_nil, or_false,
      not_or] at ht
    obtain ⟨h1, h2, h3, h4, h5, h6⟩ := ht
    simp [alertClass, h1, h2, h3, h4, h5, h6]
  · simp [calloutClasses]
  · simp [calloutClasses]

/-- C1, witness: the amended theorem applied at the unrecognized tag
`"bogus"`. -/
theorem variant_fallback_amended_witness :
    alertClass "bogus" = "alert-info" ∧
    "callout-bogus" ∈ calloutClasses "bogus" false false :=
  ⟨(variant_fallback_amended "bogus" (by decide)).1,
   ((variant_fallback_amended "bogus" (by decide)).2 false false).1⟩

/-- C2, counterexample: with every optional parameter absent the embed
URL ends in a dangling `?` — a trailing separator artifact — and with a
start time present the query begins with `?&`, a doubled separator. -/
theorem youtube_query_artifact_counterexample :
    youtubeSrc "abc" none false true = "https://www.youtube.com/embed/abc?" ∧
    (youtubeSrc "abc" none false true).data.getLast? = some '?' ∧
    youtubeSrc "abc" (some 10) false true =
      "https://www.youtube.com/embed/abc?&start=10" := by
  refine ⟨rfl, ?_, rfl⟩
  decide

/-- C2 (amended): the optional start-time/autoplay/controls parameters
of `embed_youtube` are turned into query fragments only when present and
are joined with the separator `&`; however the base URL always ends with
`?`, and when params are present the joined string is prefixed with one
more `&`, so the query reads `?&start=...`; when every optional param is
absent the param string is empty and the URL ends with a bare `?`. -/
theorem youtube_query_params_amended (vid : String) (n : Int) (hn : n ≠ 0) :
    youtubeParamString none false true = "" ∧
    youtubeSrc vid none false true =
      "https://www.youtube.com/embed/" ++ vid ++ "?" ∧
    youtubeParamString (some n) true false =
      "&start=" ++ toString n ++ "&autoplay=1&controls=0" ∧
    youtubeSrc vid (some n) true false =
      "https://www.youtube.com/embed/" ++ vid ++ "?" ++
        ("&start=" ++ toString n ++ "&autoplay=1&controls=0") := by
  have h3 : youtubeParamString (some n) true false =
      "&start=" ++ toString n ++ "&autoplay=1&controls=0" := by
    simp [youtubeParamString, youtubeParams, hn, String.intercalate,
      String.intercalate.go, String.append_assoc]
    rw [← String.append_assoc]
    rfl
  refine ⟨rfl, ?_, h3, ?_⟩
  · simp [youtubeSrc, youtubeParamString, youtubeParams]
  · simp only [youtubeSrc, h3]

/-- C2, witness: the amended theorem applied at `video_id = "abc"`,
`start_time = 10`. -/
theorem youtube_query_params_amended_witness :
    youtubeSrc "abc" none false true =
      "https://www.youtube.com/embed/" ++ "abc" ++ "?" ∧
    youtubeParamString (some 10) true false =
      "&start=" ++ toString (10 : Int) ++ "&autoplay=1&controls=0" :=
  ⟨(youtube_query_params_amended "abc" 10 (by decide)).2.1,
   (youtube_query_params_amended "abc" 10 (by decide)).2.2.1⟩

/-- C3, counterexample: `create_styled_table` with `max_rows = 0` does
not truncate to at most 0 rows — Python truthiness treats `0` like
`None`, so every row is rendered. -/
theorem styled_table_zero_limit_counterexample :
    styledTableRows (some 0) ["r1"] = ["r1"] ∧
    ¬ (styledTableRows (some 0) ["r1"]).length ≤ 0 := by
  decide

/-- C3 (amended): for every positive row limit N, `create_styled_table`
renders exactly the first N rows (at most N, a prefix of the original
order); when no limit is supplied all rows are rendered; the limit `0`
is treated like no limit and also renders all rows. -/
theorem styled_table_truncation_amended (α : Type) (rows : List α) (n : Int)
    (h : 0 < n) :
    styledTableRows (some n) rows = rows.take n.toNat ∧
    (styledTableRows (some n) rows).length ≤ n.toNat ∧
    styledTableRows (some n) rows <+: rows ∧
    styledTableRows (none : Option Int) rows = rows ∧
    styledTableRows (some 0) rows = rows := by
  have he : styledTableRows (some n) rows = rows.take n.toNat := by
    simp [styledTableRows, h.ne', pdHead, h.le]
  refine ⟨he, ?_, ?_, rfl, rfl⟩
  · rw [he]; simp [List.length_take]
  · rw [he]; exact ⟨rows.drop n.toNat, List.take_append_drop _ _⟩

/-- C3, witness: the amended theorem applied at a two-row table with
limit 1. -/
theorem styled_table_truncation_amended_witness :
    styledTableRows (some 1) ["r1", "r2"] = ["r1"] ∧
    styledTableRows (some 1) ["r1", "r2"] <+: ["r1", "r2"] :=
  ⟨(styled_table_truncation_amended String ["r1", "r2"] 1 (by decide)).1,
   (styled_table_truncation_amended String ["r1", "r2"] 1 (by decide)).2.2.1⟩

/-- C4, counterexample: a caller-supplied empty-string label does not
override the computed label — `label or ...` treats `""` as absent, so
the output still embeds the computed percentage. -/
theorem progress_empty_label_counterexample :
    progressLabelText 25 100 (some "") = "25.0%" ∧ "25.0%" ≠ "" := by
  constructor
  · have h : progressPercentage 25 100 * 10 = 250 := by
      norm_num [progressPercentage]
    simp only [progressLabelText, formatOneDecimal, h, Rat.num_ofNat,
      Rat.den_ofNat]
    decide
  · decide

/-- C4 (amended): for non-zero `max_value`, `create_progress_bar`
computes `percentage = value / max_value * 100` and, when the label is
omitted, embeds the percentage rendered to one decimal place (so
`value=25, max=100` and `value=50, max=200` both yield `"25.0%"`); a
non-empty caller-supplied label overrides the computed one, but an
empty-string label is treated as absent and falls back to the computed
percentage. -/
theorem progress_label_amended (v m : ℚ) (hm : m ≠ 0) :
    progressPercentage v m = v / m * 100 ∧
    progressLabelText v m none =
      formatOneDecimal (progressPercentage v m) ++ "%" ∧
    progressLabelText v m (some "") =
      formatOneDecimal (progressPercentage v m) ++ "%" ∧
    (∀ s : String, s ≠ "" → progressLabelText v m (some s) = s) ∧
    progressLabelText 25 100 none = "25.0%" ∧
    progressLabelText 50 200 none = "25.0%" := by
  refine ⟨rfl, rfl, by simp [progressLabelText],
    fun s hs => by simp [progressLabelText, hs], ?_, ?_⟩
  · have h : progressPercentage 25 100 * 10 = 250 := by
      norm_num [progressPercentage]
    simp only [progressLabelText, formatOneDecimal, h, Rat.num_ofNat,
      Rat.den_ofNat]
    decide
  · have h : progressPercentage 50 200 * 10 = 250 := by
      norm_num [progressPercentage]
    simp only [progressLabelText, formatOneDecimal, h, Rat.num_ofNat,
      Rat.den_ofNat]
    decide

/-- C4, witness: the amended theorem applied at `value=25, max=100` with
no label, and at a non-empty label which overrides. -/
theorem progress_label_amended_witness :
    progressLabelText 25 100 none = "25.0%" ∧
    progressLabelText 30 60 (some "halfway") = "halfway" :=
  ⟨(progress_label_amended 25 100 (by decide)).2.2.2.2.1,
   (progress_label_amended 30 60 (by decide)).2.2.2.1 "halfway" (by decide)⟩

/-- Maximum characterization for `List.max?` over the rationals, used by
the comparison-table highlighting proof. -/
theorem max?_rat_spec (l : List ℚ) (m : ℚ) (hm : l.max? = some m) :
    m ∈ l ∧ ∀ b ∈ l, b ≤ m := by
  have : Std.Antisymm ((· : ℚ) ≤ ·) := ⟨fun h1 h2 => le_antisymm h1 h2⟩
  exact (List.max?_eq_some_iff le_refl max_choice
    (fun a b c => max_le_iff)).mp hm

/-- C5 (confirmed): with `highlight_best`, `create_comparison_table`
marks cell i of a numeric column highlighted exactly when its value is
the column's maximum — so every row holding a tied maximum is marked,
not only the first occurrence. -/
theorem comparison_highlight_all_maxima (data : List (String × List ℚ))
    (name : String) (col : List ℚ) (hmem : (name, col) ∈ data) :
    (name, highlightMaxColumn col) ∈ create_comparison_table data true ∧
    ∀ (i : Nat) (hi : i < col.length),
      ((highlightMaxColumn col)[i]? = some true ↔ ∀ y ∈ col, y ≤ col[i]) := by
  constructor
  · simp only [create_comparison_table, if_true]
    exact List.mem_map_of_mem _ hmem
  · intro i hi
    have hne : col ≠ [] := by intro h; subst h; simp at hi
    obtain ⟨m, hm⟩ : ∃ m, col.max? = some m := by
      cases h : col.max? with
      | none => exact absurd (List.max?_eq_none_iff.mp h) hne
      | some m => exact ⟨m, rfl⟩
    obtain ⟨hmmem, hmub⟩ := max?_rat_spec col m hm
    simp only [highlightMaxColumn, hm, List.getElem?_map,
      List.getElem?_eq_getElem hi, Option.map_some]
    constructor
    · intro h y hy
      have hc : col[i] = m := by simpa using h
      rw [hc]; exact hmub y hy
    · intro h
      have h1 : col[i] ≤ m := hmub _ (List.getElem_mem hi)
      have h2 : m ≤ col[i] := h m hmmem
      simp [le_antisymm h1 h2]

/-- C5, witness: in the column `[3, 5, 5]` both tied maxima (rows 1 and
2) are marked highlighted. -/
theorem comparison_highlight_all_maxima_witness :
    ("score", highlightMaxColumn [3, 5, 5]) ∈
      create_comparison_table [("score", [3, 5, 5])] true ∧
    (highlightMaxColumn [(3 : ℚ), 5, 5])[1]? = some true ∧
    (highlightMaxColumn [(3 : ℚ), 5, 5])[2]? = some true :=
  ⟨(comparison_highlight_all_maxima [("score", [3, 5, 5])] "score" [3, 5, 5]
      (by decide)).1,
   ((comparison_highlight_all_maxima [("score", [3, 5, 5])] "score" [3, 5, 5]
      (by decide)).2 1 (by decide)).mpr (by decide),
   ((comparison_highlight_all_maxima [("score", [3, 5, 5])] "score" [3, 5, 5]
      (by decide)).2 2 (by decide)).mpr (by decide)⟩

/-- C6 (confirmed): in `create_tabs` and `create_accordion` over an
ordered mapping with at least two entries, each active/expanded marker
individually holds at section i exactly when i = 0 — the tab nav button
class is `nav-link active`, the pane class carries `show active`, the
accordion button is non-`collapsed`, `aria-expanded` is `"true"` and the
collapse class carries `show` — and every non-first section carries the
explicit inactive/collapsed forms (`nav-link `, `tab-pane fade `,
`accordion-button collapsed`, `aria-expanded="false"`, collapse class
without `show`). -/
theorem first_section_active (entries : List (String × String))
    (hn : 2 ≤ entries.length) (i : Nat) (hi : i < entries.length) :
    (tabNavLinkClass i = "nav-link active" ↔ i = 0) ∧
    (tabPaneClass i = "tab-pane fade show active" ↔ i = 0) ∧
    (accordionButtonClass i = "accordion-button " ↔ i = 0) ∧
    (accordionAriaExpanded i = "true" ↔ i = 0) ∧
    (accordionCollapseClass i = "accordion-collapse collapse show" ↔ i = 0) ∧
    (i ≠ 0 →
      tabNavLinkClass i = "nav-link " ∧
      tabPaneClass i = "tab-pane fade " ∧
      accordionButtonClass i = "accordion-button collapsed" ∧
      accordionAriaExpanded i = "false" ∧
      accordionCollapseClass i = "accordion-collapse collapse ") := by
  by_cases h : i = 0 <;>
    simp [tabNavLinkClass, tabActiveClass, tabPaneClass,
      accordionButtonClass, accordionAriaExpanded, accordionCollapseClass, h]

/-- C6, witness: on a two-entry mapping, section 0 carries the active
tab and expanded accordion markers while section 1 carries the explicit
inactive and collapsed forms. -/
theorem first_section_active_witness :
    tabNavLinkClass 0 = "nav-link active" ∧
    tabPaneClass 0 = "tab-pane fade show active" ∧
    accordionAriaExpanded 0 = "true" ∧
    tabNavLinkClass 1 = "nav-link " ∧
    tabPaneClass 1 = "tab-pane fade " ∧
    accordionButtonClass 1 = "accordion-button collapsed" ∧
    accordionAriaExpanded 1 = "false" :=
  ⟨(first_section_active [("A", "a"), ("B", "b")] (by decide) 0
      (by decide)).1.mpr rfl,
   (first_section_active [("A", "a"), ("B", "b")] (by decide) 0
      (by decide)).2.1.mpr rfl,
   (first_section_active [("A", "a"), ("B", "b")] (by decide) 0
      (by decide)).2.2.2.1.mpr rfl,
   ((first_section_active [("A", "a"), ("B", "b")] (by decide) 1
      (by decide)).2.2.2.2.2 (by decide)).1,
   ((first_section_active [("A", "a"), ("B", "b")] (by decide) 1
      (by decide)).2.2.2.2.2 (by decide)).2.1,
   ((first_section_active [("A", "a"), ("B", "b")] (by decide) 1
      (by decide)).2.2.2.2.2 (by decide)).2.2.1,
   ((first_section_active [("A", "a"), ("B", "b")] (by decide) 1
      (by decide)).2.2.2.2.2 (by decide)).2.2.2.1⟩

/-- C7 (confirmed): for every positive column count,
`create_image_gallery` computes the per-item width as the integer
division `12 // columns` — the floor, so non-exact division truncates —
and `columns = 3` yields the `col-md-4` width class while `columns = 5`
yields `col-md-2`. -/
theorem gallery_column_width (c : Int) (h : 0 < c) :
    galleryColWidth c * c ≤ 12 ∧ 12 < (galleryColWidth c + 1) * c ∧
    galleryItemClass 3 = "col-md-4 mb-4" ∧
    galleryItemClass 5 = "col-md-2 mb-4" := by
  have he : galleryColWidth c = 12 / c := by
    simp [galleryColWidth, Int.fdiv_eq_ediv _ h.le]
  have h1 := Int.ediv_add_emod 12 c
  have h2 := Int.emod_nonneg 12 h.ne'
  have h3 := Int.emod_lt_of_pos 12 h
  refine ⟨?_, ?_, by decide, by decide⟩ <;> rw [he] <;> nlinarith

/-- C7, witness: the theorem applied at `columns = 5`, where division is
non-exact and truncates to 2. -/
theorem gallery_column_width_witness :
    galleryColWidth 5 * 5 ≤ 12 ∧ 12 < (galleryColWidth 5 + 1) * 5 :=
  ⟨(gallery_column_width 5 (by decide)).1,
   (gallery_column_width 5 (by decide)).2.1⟩

/-- C9 (confirmed): every quick helper is extensionally equal to the
corresponding general renderer with one parameter pinned — `quick_note`,
`quick_tip` and `quick_warning` pin the callout variant, `quick_success`
and `quick_info` pin the alert variant, and `quick_youtube`,
`quick_iframe` and `quick_quote` pin to the general embed/iframe/quote
renderers with their default parameters; the helpers contain no
independent logic. -/
theorem quick_helpers_delegate (c vid url q : String) (r : ℚ)
    (a : Option String) :
    quick_note c = create_callout c "note" none false false ∧
    quick_tip c = create_callout c "tip" none false false ∧
    quick_warning c = create_callout c "warning" none false false ∧
    quick_success c = create_alert_box c "success" none false ∧
    quick_info c = create_alert_box c "info" none false ∧
    quick_youtube vid = embed_youtube vid "100%" 0.5625 none false true ∧
    quick_iframe url r = create_responsive_iframe url r "100%" "0" true "lazy" ∧
    quick_quote q a = create_quote_block q a none :=
  ⟨rfl, rfl, rfl, rfl, rfl, rfl, rfl, rfl⟩

/-- C10 (confirmed): `embed_youtube` with `start_time = 0` produces
output identical to the call with `start_time` omitted — `if start_time:`
treats zero as absent — and the parameter list built for a zero start
time contains only autoplay/controls fragments, never a start
parameter. -/
theorem youtube_zero_start_absent (vid w : String) (ar : ℚ) (ap ct : Bool) :
    embed_youtube vid w ar (some 0) ap ct =
      embed_youtube vid w ar none ap ct ∧
    youtubeParams (some 0) ap ct = youtubeParams none ap ct ∧
    ∀ p ∈ youtubeParams (some 0) ap ct,
      p = "autoplay=1" ∨ p = "controls=0" := by
  refine ⟨rfl, rfl, ?_⟩
  intro p hp
  cases ap <;> cases ct <;> simp [youtubeParams] at hp ⊢ <;> tauto

end BlogUtils
